import Mathlib

/-!
Verification of the authentication core of `ellucian_support/auth.py`
(Skaffen-Amtiskaw repository): the `AuthSession` session store, the
`OktaAuthenticator.validate_session` probe, and the full
`OktaAuthenticator.authenticate` Okta-SAML handshake.

The Python code is shallowly embedded:

* JSON values are the inductive `Json`; Python's `dict.get` with a default is
  `Json.pyGet` (raising `AttributeError` on non-dicts, as Python does), key
  membership is `Json.hasKey`, and Python truthiness is `Json.truthy`.
* The filesystem read in `AuthSession.load` is abstracted to its outcome:
  `none` = missing file, `some none` = file whose text `json.loads` rejects,
  `some (some j)` = file whose text parses to the JSON value `j`.
* HTTP traffic is scripted: `authenticate` and `validate_session` consume
  environment-supplied `HttpResponse` values in order.  The embedding records
  the full trace of issued requests, the accumulated cookie jar, the number
  of MFA-callback invocations and any `save` of a session, so that claims
  about "what was sent" and "what was called" are stated over the trace.
* `print` diagnostics in the Python code affect neither control flow nor any
  produced value and are not modeled.
-/

/-- JSON values as produced by `json.loads`.  Objects are insertion-ordered
key/value lists (Python 3 dicts preserve insertion order; `json.loads` never
yields duplicate keys). -/
inductive Json where
  | null
  | bool (b : Bool)
  | num (n : Int)
  | str (s : String)
  | arr (elems : List Json)
  | obj (fields : List (String × Json))
  deriving Repr

/-- Python exceptions that the embedded code can raise besides
`AuthenticationError`. -/
inductive PyErr where
  /-- `AttributeError`: calling `.get` on a non-dict value. -/
  | attributeError
  /-- `TypeError` (e.g. iterating a non-iterable); also used where the
  embedding restricts the untyped dataclass fields to their declared
  annotations instead of coercing. -/
  | typeMismatch
  deriving Repr, DecidableEq

namespace Json

/-- First-occurrence lookup in a JSON object's field list. -/
def lookup (k : String) : List (String × Json) → Option Json
  | [] => none
  | (k', v) :: rest => if k' = k then some v else lookup k rest

/-- `d.get(k, default)`: on a dict, the value at `k` or the default;
on any other value Python raises `AttributeError`. -/
def pyGet (j : Json) (k : String) (default : Json) : Except PyErr Json :=
  match j with
  | .obj fields => .ok ((lookup k fields).getD default)
  | _ => .error .attributeError

/-- `k in d` for a dict value (the embedded flow only evaluates this after a
successful `.get` on the same value, hence on dicts). -/
def hasKey (j : Json) (k : String) : Bool :=
  match j with
  | .obj fields => (lookup k fields).isSome
  | _ => false

/-- Python truthiness of a JSON value: `None`, `False`, `0`, `""`, `[]`, `{}`
are falsy, everything else truthy. -/
def truthy : Json → Bool
  | .null => false
  | .bool b => b
  | .num n => n != 0
  | .str s => s != ""
  | .arr elems => !elems.isEmpty
  | .obj fields => !fields.isEmpty

/-- Read a JSON value as a string, if it is one. -/
def asStr : Json → Option String
  | .str s => some s
  | _ => none

/-- Read the fields of a JSON object as string pairs, preserving order. -/
def strFields : List (String × Json) → Option (List (String × String))
  | [] => some []
  | (k, v) :: rest =>
      match v.asStr, strFields rest with
      | some s, some tl => some ((k, s) :: tl)
      | _, _ => none

/-- Read a JSON object of string values as a cookie mapping, preserving
field order. -/
def asStrMap : Json → Option (List (String × String))
  | .obj fields => strFields fields
  | _ => none

/-- Field lookup on an object value (`none` on non-objects). -/
def find (j : Json) (k : String) : Option Json :=
  match j with
  | .obj fields => lookup k fields
  | _ => none

/-- Python `==` between a JSON value and a string literal. -/
def eqStr (j : Json) (s : String) : Bool :=
  match j with
  | .str t => t = s
  | _ => false

/-- Python `for x in v`: lists yield their elements, dicts their keys,
strings their characters; other values raise `TypeError`. -/
def pyIter (j : Json) : Except PyErr (List Json) :=
  match j with
  | .arr elems => .ok elems
  | .obj fields => .ok (fields.map fun p => .str p.1)
  | .str s => .ok (s.data.map fun c => .str (String.mk [c]))
  | _ => .error .typeMismatch

end Json

/-- Python dict assignment `d[k] = v`: overwrite in place if the key exists,
else append (insertion order preserved). -/
def dictInsert (k : String) (v : String) : List (String × String) → List (String × String)
  | [] => [(k, v)]
  | (k', v') :: rest =>
      if k' = k then (k, v) :: rest else (k', v') :: dictInsert k v rest

/-- The `AuthSession` dataclass: cookie mapping plus identity fields, with the
declared field types (`dict[str, str]` and `str`). -/
structure AuthSession where
  cookies : List (String × String) := []
  user_email : String := ""
  user_id : String := ""
  glide_session_store : String := ""
  deriving Repr, DecidableEq

namespace AuthSession

/-- `is_authenticated`: `bool(self.glide_session_store)`, i.e. the
distinguished cookie value is a non-empty string. -/
def is_authenticated (s : AuthSession) : Bool :=
  s.glide_session_store != ""

/-- The JSON object `save` serializes (`json.dumps(data, indent=2)` writes
exactly this data; key order as in the source). -/
def saveData (s : AuthSession) : Json :=
  .obj
    [ ("cookies", .obj (s.cookies.map fun (k, v) => (k, .str v)))
    , ("user_email", .str s.user_email)
    , ("user_id", .str s.user_id)
    , ("glide_session_store", .str s.glide_session_store)
    ]

/-- Decode one stored field under its dataclass annotation. -/
def decodeStr (j : Json) : Except PyErr String :=
  match j.asStr with
  | some s => .ok s
  | none => .error .typeMismatch

/-- Decode the stored cookie mapping under its `dict[str, str]` annotation. -/
def decodeCookies (j : Json) : Except PyErr (List (String × String)) :=
  match j.asStrMap with
  | some m => .ok m
  | none => .error .typeMismatch

/-- Body of the `try` block in `AuthSession.load`, given the parsed file
contents: four `data.get(key, default)` reads feeding the constructor. -/
def loadBody (data : Json) : Except PyErr AuthSession :=
  match (data.pyGet "cookies" (.obj [])).bind decodeCookies with
  | .error e => .error e
  | .ok cookies =>
      match (data.pyGet "user_email" (.str "")).bind decodeStr with
      | .error e => .error e
      | .ok user_email =>
          match (data.pyGet "user_id" (.str "")).bind decodeStr with
          | .error e => .error e
          | .ok user_id =>
              match (data.pyGet "glide_session_store" (.str "")).bind decodeStr with
              | .error e => .error e
              | .ok glide => .ok ⟨cookies, user_email, user_id, glide⟩

/-- `AuthSession.load`.  The file argument abstracts the read:
`none` = `path.exists()` is false; `some none` = `json.loads` raises
`JSONDecodeError` on the file's text (e.g. an empty file); `some (some j)` =
the text parses to `j`.  `JSONDecodeError` and `KeyError` are caught and give
`none` ("no session"); other exceptions propagate. -/
def load (file : Option (Option Json)) : Except PyErr (Option AuthSession) :=
  match file with
  | none => .ok none
  | some none => .ok none
  | some (some data) =>
      match loadBody data with
      | .ok s => .ok (some s)
      | .error e => .error e

end AuthSession

/-- An environment-scripted HTTP response: status, headers, body text, the
result of `.json()` on the body (`none` when the body is not valid JSON),
the cookies it sets into the client jar, and the final URL of the response. -/
structure HttpResponse where
  status : Nat := 200
  headers : List (String × String) := []
  text : String := ""
  jsonBody : Option Json := none
  setCookies : List (String × String × String) := []
  url : String := ""
  deriving Repr

/-- Character-wise lowercasing (httpx lowercases header names for lookup). -/
def lowerStr (s : String) : String := String.mk (s.data.map Char.toLower)

/-- `pfx.isPrefixOf s` at the string level (`str.startswith` in Python). -/
def strStartsWith (s pfx : String) : Bool := pfx.data.isPrefixOf s.data

/-- Substring containment on char lists. -/
def containsLC (needle : List Char) : List Char → Bool
  | [] => needle.isEmpty
  | c :: rest => needle.isPrefixOf (c :: rest) || containsLC needle rest

/-- `needle in hay` for Python strings. -/
def containsStr (hay needle : String) : Bool := containsLC needle.data hay.data

/-- Hexadecimal digit value. -/
def hexVal (c : Char) : Option Nat :=
  if '0' ≤ c ∧ c ≤ '9' then some (c.toNat - '0'.toNat)
  else if 'a' ≤ c ∧ c ≤ 'f' then some (c.toNat - 'a'.toNat + 10)
  else if 'A' ≤ c ∧ c ≤ 'F' then some (c.toNat - 'A'.toNat + 10)
  else none

/-- Characters matched by the regex class `[^"'<>\s;]` (the `\s` class is
modeled over ASCII whitespace). -/
def urlChar (c : Char) : Bool :=
  !(c = '"' || c = '\'' || c = '<' || c = '>' || c = ';' || c.isWhitespace)

/-- `str.replace("&amp;", "&")`: left-to-right, non-overlapping. -/
def replaceAmp : List Char → List Char
  | '&' :: 'a' :: 'm' :: 'p' :: ';' :: rest => '&' :: replaceAmp rest
  | c :: rest => c :: replaceAmp rest
  | [] => []

/-- `urllib.parse.unquote`, modeled byte-per-character: a `%` followed by two
hex digits decodes to that code point; anything else passes through.  (Python
additionally reassembles multi-byte UTF-8 sequences; no value above 0x7F is
exercised here.) -/
def unquoteLC : List Char → List Char
  | '%' :: a :: b :: rest =>
      match hexVal a, hexVal b with
      | some ha, some hb => Char.ofNat (16 * ha + hb) :: unquoteLC rest
      | _, _ => '%' :: unquoteLC (a :: b :: rest)
  | c :: rest => c :: unquoteLC rest
  | [] => []

/-- `codecs.decode(·, "unicode_escape")`, modeled for the escape forms the
Okta pages use: `\xNN`, `\uNNNN`, the single-character escapes, and unknown
escapes kept verbatim (as CPython does). -/
def unicodeUnescape : List Char → List Char
  | '\\' :: 'x' :: a :: b :: rest =>
      (match hexVal a, hexVal b with
       | some ha, some hb => Char.ofNat (16 * ha + hb) :: unicodeUnescape rest
       | _, _ => '\\' :: 'x' :: unicodeUnescape (a :: b :: rest))
  | '\\' :: 'u' :: a :: b :: c :: d :: rest =>
      (match hexVal a, hexVal b, hexVal c, hexVal d with
       | some ha, some hb, some hc, some hd =>
           Char.ofNat (4096 * ha + 256 * hb + 16 * hc + hd) :: unicodeUnescape rest
       | _, _, _, _ => '\\' :: 'u' :: unicodeUnescape (a :: b :: c :: d :: rest))
  | '\\' :: 'n' :: rest => '\n' :: unicodeUnescape rest
  | '\\' :: 't' :: rest => '\t' :: unicodeUnescape rest
  | '\\' :: 'r' :: rest => '\r' :: unicodeUnescape rest
  | '\\' :: '\\' :: rest => '\\' :: unicodeUnescape rest
  | '\\' :: '\'' :: rest => '\'' :: unicodeUnescape rest
  | '\\' :: '"' :: rest => '"' :: unicodeUnescape rest
  | c :: rest => c :: unicodeUnescape rest
  | [] => []

/-- Scan the digit run of a numeric character reference up to its closing
`;`, returning the referenced code point and the remaining input. -/
def numRefScan (base : Nat) (acc : Option Nat) : List Char → Option (Nat × List Char)
  | [] => none
  | c :: rest =>
      if c = ';' then acc.map fun n => (n, rest)
      else
        match hexVal c with
        | some v =>
            if v < base then numRefScan base (some (base * acc.getD 0 + v)) rest
            else none
        | none => none

/-- `html.unescape` worker, modeled for numeric character references and the
core named entities; malformed or unknown references pass through verbatim.
Every step consumes at least one character and spends exactly one unit of
fuel, so fuel equal to the input length always suffices; the zero-fuel
fallback (returning the remainder verbatim) is unreachable from
`htmlUnescape`. -/
def htmlUnescapeFuel : Nat → List Char → List Char
  | 0, l => l
  | _ + 1, [] => []
  | fuel + 1, '&' :: '#' :: 'x' :: rest =>
      (match numRefScan 16 none rest with
       | some (n, rest2) => Char.ofNat n :: htmlUnescapeFuel fuel rest2
       | none => '&' :: '#' :: 'x' :: htmlUnescapeFuel fuel rest)
  | fuel + 1, '&' :: '#' :: rest =>
      (match numRefScan 10 none rest with
       | some (n, rest2) => Char.ofNat n :: htmlUnescapeFuel fuel rest2
       | none => '&' :: '#' :: htmlUnescapeFuel fuel rest)
  | fuel + 1, '&' :: 'a' :: 'm' :: 'p' :: ';' :: rest =>
      '&' :: htmlUnescapeFuel fuel rest
  | fuel + 1, '&' :: 'l' :: 't' :: ';' :: rest =>
      '<' :: htmlUnescapeFuel fuel rest
  | fuel + 1, '&' :: 'g' :: 't' :: ';' :: rest =>
      '>' :: htmlUnescapeFuel fuel rest
  | fuel + 1, '&' :: 'q' :: 'u' :: 'o' :: 't' :: ';' :: rest =>
      '"' :: htmlUnescapeFuel fuel rest
  | fuel + 1, '&' :: 'a' :: 'p' :: 'o' :: 's' :: ';' :: rest =>
      '\'' :: htmlUnescapeFuel fuel rest
  | fuel + 1, c :: rest => c :: htmlUnescapeFuel fuel rest

/-- `html.unescape` (see `htmlUnescapeFuel`). -/
def htmlUnescape (l : List Char) : List Char := htmlUnescapeFuel l.length l

/-- `resp.headers.get(name, default)`: httpx header lookup is
case-insensitive on the header name. -/
def headerGetD (headers : List (String × String)) (name default : String) : String :=
  match headers.find? (fun p => lowerStr p.1 = lowerStr name) with
  | some p => p.2
  | none => default

namespace OktaAuthenticator

def SERVICENOW_BASE : String := "https://elluciansupport.service-now.com"
def OKTA_BASE : String := "https://sso.ellucian.com"
def SSO_ID : String := "7d6eb13447c309500cf60562846d430c"

/-- Header set for the Okta IDX API requests. -/
def IDX_HEADERS : List (String × String) :=
  [ ("Accept", "application/ion+json; okta-version=1.0.0")
  , ("Content-Type", "application/ion+json; okta-version=1.0.0")
  , ("Origin", "https://sso.ellucian.com")
  , ("X-Okta-User-Agent-Extended", "okta-auth-js/7.14.0 okta-signin-widget-7.37.1")
  ]

/-- Leftmost match of `(https?://sso\.ellucian\.com/app/[^"'<>\s;]+)`: at each
position the literal prefix (with or without the optional `s`) followed by a
maximal non-empty run of `urlChar`s. -/
def scanAppUrl : List Char → Option (List Char)
  | [] => none
  | s@(_ :: rest) =>
      let pfxS := "https://sso.ellucian.com/app/".data
      let pfxP := "http://sso.ellucian.com/app/".data
      if pfxS.isPrefixOf s then
        let tail := s.drop pfxS.length
        if urlChar (tail.headD ' ') then some (pfxS ++ tail.takeWhile urlChar)
        else scanAppUrl rest
      else if pfxP.isPrefixOf s then
        let tail := s.drop pfxP.length
        if urlChar (tail.headD ' ') then some (pfxP ++ tail.takeWhile urlChar)
        else scanAppUrl rest
      else scanAppUrl rest

/-- Match `window\.location\s*=\s*['"]([^'"]+)['"]` anchored at the head of
the input, returning the captured group. -/
def matchWindowLocationAt (s : List Char) : Option (List Char) :=
  let lit := "window.location".data
  if lit.isPrefixOf s then
    match (s.drop lit.length).dropWhile Char.isWhitespace with
    | '=' :: t2 =>
        (match t2.dropWhile Char.isWhitespace with
         | q :: t4 =>
             if q = '\'' || q = '"' then
               let content := t4.takeWhile fun c => !(c = '\'' || c = '"')
               if content.isEmpty then none
               else
                 match t4.drop content.length with
                 | c :: _ => if c = '\'' || c = '"' then some content else none
                 | [] => none
             else none
         | [] => none)
    | _ => none
  else none

/-- Leftmost match of the `window.location` assignment pattern. -/
def scanWindowLocation : List Char → Option (List Char)
  | [] => none
  | s@(_ :: rest) =>
      match matchWindowLocationAt s with
      | some r => some r
      | none => scanWindowLocation rest

/-- Leftmost match of `sso\.ellucian\.com[^"'<>\s;]+`. -/
def scanSsoHost : List Char → Option (List Char)
  | [] => none
  | s@(_ :: rest) =>
      let pfx := "sso.ellucian.com".data
      if pfx.isPrefixOf s then
        let tail := s.drop pfx.length
        if urlChar (tail.headD ' ') then some (pfx ++ tail.takeWhile urlChar)
        else scanSsoHost rest
      else scanSsoHost rest

/-- `OktaAuthenticator._extract_saml_redirect`: the full-URL pattern, then
the `window.location` pattern (only accepted when the captured URL starts
with `http`), then the URL-encoded host pattern decoded with `unquote`. -/
def extract_saml_redirect (html : String) : Option String :=
  match scanAppUrl html.data with
  | some u => some (String.mk (replaceAmp u))
  | none =>
      let viaWL :=
        match scanWindowLocation html.data with
        | some u => if "http".data.isPrefixOf u then some u else none
        | none => none
      match viaWL with
      | some u => some (String.mk u)
      | none =>
          (scanSsoHost html.data).map fun m =>
            String.mk ("https://".data ++ unquoteLC m)

/-- Match `"stateToken"\s*:\s*"([^"]+)"` anchored at the head of the input,
returning the captured group. -/
def matchStateTokenAt (s : List Char) : Option (List Char) :=
  let lit := "\"stateToken\"".data
  if lit.isPrefixOf s then
    match (s.drop lit.length).dropWhile Char.isWhitespace with
    | ':' :: t2 =>
        (match t2.dropWhile Char.isWhitespace with
         | '"' :: t4 =>
             let content := t4.takeWhile fun c => c ≠ '"'
             if content.isEmpty then none
             else
               match t4.drop content.length with
               | '"' :: _ => some content
               | _ => none
         | _ => none)
    | _ => none
  else none

/-- Leftmost match of the quoted `stateToken` pattern. -/
def scanStateToken : List Char → Option (List Char)
  | [] => none
  | s@(_ :: rest) =>
      match matchStateTokenAt s with
      | some r => some r
      | none => scanStateToken rest

/-- Characters excluded by the class `[^&"']` of the alternate
`stateToken=` pattern. -/
def tokenChar (c : Char) : Bool := !(c = '&' || c = '"' || c = '\'')

/-- Leftmost match of `stateToken=([^&"']+)`. -/
def scanStateTokenUrl : List Char → Option (List Char)
  | [] => none
  | s@(_ :: rest) =>
      let lit := "stateToken=".data
      if lit.isPrefixOf s then
        let tail := s.drop lit.length
        if tokenChar (tail.headD '&') then some (tail.takeWhile tokenChar)
        else scanStateTokenUrl rest
      else scanStateTokenUrl rest

/-- `OktaAuthenticator._extract_state_token`: quoted-JSON pattern first, then
the `stateToken=` URL pattern; either result is unicode-unescaped. -/
def extract_state_token (html : String) : Option String :=
  match scanStateToken html.data with
  | some tok => some (String.mk (unicodeUnescape tok))
  | none =>
      (scanStateTokenUrl html.data).map fun tok =>
        String.mk (unicodeUnescape tok)

/-- Match `name="<field>"[^>]*value="([^"]+)"` anchored at the head of the
input: after the literal, the greedy `[^>]*` backtracks from the longest
`>`-free run to the last position where `value="` plus a non-empty quoted
capture matches. -/
def tryValueAt (t : List Char) (j : Nat) : Option (List Char) :=
  let u := t.drop j
  if "value=\"".data.isPrefixOf u then
    let t4 := u.drop 7
    let content := t4.takeWhile fun c => c ≠ '"'
    if content.isEmpty then none
    else
      match t4.drop content.length with
      | '"' :: _ => some content
      | _ => none
  else none

/-- Try `value="([^"]+)"` at offset `j` of `t`, then at `j-1`, …, 0. -/
def valueSearch (t : List Char) : Nat → Option (List Char)
  | 0 => tryValueAt t 0
  | j + 1 =>
      match tryValueAt t (j + 1) with
      | some r => some r
      | none => valueSearch t j

def matchFormValueAt (lit : List Char) (s : List Char) : Option (List Char) :=
  if lit.isPrefixOf s then
    let t := s.drop lit.length
    valueSearch t (t.takeWhile (fun c => c ≠ '>')).length
  else none

/-- Leftmost match of the auto-submit form-field pattern for `lit`. -/
def scanFormValue (lit : List Char) : List Char → Option (List Char)
  | [] => none
  | s@(_ :: rest) =>
      match matchFormValueAt lit s with
      | some r => some r
      | none => scanFormValue lit rest

/-- `OktaAuthenticator._extract_saml_response`: the `SAMLResponse` and
`RelayState` hidden-form values, each HTML-entity-decoded. -/
def extract_saml_response (html : String) : Option String × Option String :=
  let saml := scanFormValue "name=\"SAMLResponse\"".data html.data
  let relay := scanFormValue "name=\"RelayState\"".data html.data
  ( saml.map fun v => String.mk (htmlUnescape v)
  , relay.map fun v => String.mk (htmlUnescape v) )

/-- HTTP method of an issued request. -/
inductive Method where
  | get
  | post
  deriving Repr, DecidableEq

/-- A request issued by the authenticator, as recorded in the trace. -/
structure Request where
  method : Method
  url : String
  headers : List (String × String) := []
  jsonPayload : Option Json := none
  formPayload : Option (List (String × Option String)) := none
  followRedirects : Bool := false
  deriving Repr

/-- Ways an `authenticate` run can terminate abnormally. -/
inductive FlowErr where
  /-- `raise AuthenticationError(msg)`. -/
  | authError (msg : String)
  /-- An uncaught Python-level exception. -/
  | pyError (e : PyErr)
  /-- `.json()` on a body that is not valid JSON (`JSONDecodeError`). -/
  | jsonDecodeError
  /-- The scripted environment had no response left for an issued request
  (a transport-level failure). -/
  | scriptEnd
  deriving Repr, DecidableEq

/-- State threaded through a scripted `authenticate` run: the responses not
yet consumed, the trace of issued requests, the client cookie jar
(name, value, domain), the number of MFA-callback invocations, and the
session passed to `save`, if any. -/
structure FlowSt where
  pending : List HttpResponse
  reqs : List Request := []
  jar : List (String × String × String) := []
  mfaCalls : Nat := 0
  saved : Option AuthSession := none
  deriving Repr

/-- The handshake monad: explicit state plus abnormal termination, with the
state preserved at the point of failure. -/
abbrev FlowM := EStateM FlowErr FlowSt

/-- Store one cookie into the jar, replacing an existing cookie with the
same name and domain (httpx jar semantics). -/
def setCookie (jar : List (String × String × String))
    (c : String × String × String) : List (String × String × String) :=
  match jar with
  | [] => [c]
  | d :: rest =>
      if d.1 = c.1 ∧ d.2.2 = c.2.2 then c :: rest else d :: setCookie rest c

/-- Store a response's cookies into the jar, in order. -/
def updateJar (jar : List (String × String × String))
    (newCookies : List (String × String × String)) :
    List (String × String × String) :=
  newCookies.foldl setCookie jar

/-- Issue a request: record it in the trace, consume the next scripted
response and absorb its cookies.  An exhausted script is a transport
failure. -/
def issue (req : Request) : FlowM HttpResponse := do
  let st ← get
  match st.pending with
  | [] => do
      set { st with reqs := st.reqs ++ [req] }
      throw .scriptEnd
  | r :: rest => do
      set { st with
              reqs := st.reqs ++ [req],
              pending := rest,
              jar := updateJar st.jar r.setCookies }
      pure r

/-- `resp.json()`. -/
def respJson (r : HttpResponse) : FlowM Json :=
  match r.jsonBody with
  | some j => pure j
  | none => throw .jsonDecodeError

/-- `d.get(k, default)` inside the flow: `AttributeError` propagates. -/
def pyGetF (j : Json) (k : String) (d : Json) : FlowM Json :=
  match j.pyGet k d with
  | .ok v => pure v
  | .error e => throw (.pyError e)

/-- Lift a pure Python computation into the flow. -/
def liftPy {α : Type} : Except PyErr α → FlowM α
  | .ok v => pure v
  | .error e => throw (.pyError e)

/-- Innermost loop of the remediation-tree search (`for fv in form_values`):
the first entry named `id` assigns its `value` and breaks. -/
def scanFvs : List Json → Except PyErr (Option Json)
  | [] => .ok none
  | fv :: rest => do
      let name ← fv.pyGet "name" .null
      if name.eqStr "id" then do
        let v ← fv.pyGet "value" .null
        .ok (some v)
      else scanFvs rest

/-- `for opt in options`: the first option labeled `Okta Verify` has its
form values searched, then the loop breaks (whether or not an `id` was
found). -/
def scanOpts : List Json → Except PyErr (Option Json)
  | [] => .ok none
  | opt :: rest => do
      let label ← opt.pyGet "label" .null
      if label.eqStr "Okta Verify" then do
        let v ← opt.pyGet "value" (.obj [])
        let form ← v.pyGet "form" (.obj [])
        let fv ← form.pyGet "value" (.arr [])
        let fvs ← fv.pyIter
        scanFvs fvs
      else scanOpts rest

/-- `for val in auth_options` (no break): every entry named `authenticator`
runs the option search; an assignment made there overwrites `acc`. -/
def scanVals (acc : Option Json) : List Json → Except PyErr (Option Json)
  | [] => .ok acc
  | val :: rest => do
      let name ← val.pyGet "name" .null
      if name.eqStr "authenticator" then do
        let options ← val.pyGet "options" (.arr [])
        let opts ← options.pyIter
        let r ← scanOpts opts
        scanVals (match r with | some v => some v | none => acc) rest
      else scanVals acc rest

/-- `for rem in remediation_value` (no break): every
`select-authenticator-authenticate` entry runs the value search. -/
def scanRems (acc : Option Json) : List Json → Except PyErr (Option Json)
  | [] => .ok acc
  | rem :: rest => do
      let name ← rem.pyGet "name" .null
      if name.eqStr "select-authenticator-authenticate" then do
        let auth_options ← rem.pyGet "value" (.arr [])
        let vals ← auth_options.pyIter
        let acc' ← scanVals acc vals
        scanRems acc' rest
      else scanRems acc rest

/-- Fallback search over the `authenticators` array: the first entry keyed
`okta_verify` assigns its `id` and breaks. -/
def scanAuths : List Json → Except PyErr (Option Json)
  | [] => .ok none
  | auth :: rest => do
      let key ← auth.pyGet "key" .null
      if key.eqStr "okta_verify" then do
        let i ← auth.pyGet "id" .null
        .ok (some i)
      else scanAuths rest

/-- `while callback_resp.status_code in (301, 302)`: follow the redirect
chain.  The fuel argument is called with more fuel than scripted responses
remain, so the zero-fuel branch is unreachable (the script runs out first,
surfacing as `scriptEnd` inside `issue`). -/
def followRedirectChain : Nat → HttpResponse → FlowM HttpResponse
  | 0, _ => throw .scriptEnd
  | fuel + 1, resp =>
      if resp.status = 301 ∨ resp.status = 302 then do
        let location := headerGetD resp.headers "location" ""
        let location :=
          if strStartsWith location "http" then location
          else SERVICENOW_BASE ++ location
        let next ← issue { method := .get, url := location }
        followRedirectChain fuel next
      else pure resp

/-- One iteration of the session-building loop (lines 371–374): the cookie
lands in `session.cookies`; a `glide_session_store` cookie also sets the
distinguished field. -/
def addCookie (s : AuthSession) (c : String × String × String) : AuthSession :=
  let s' := { s with cookies := dictInsert c.1 c.2.1 s.cookies }
  if c.1 = "glide_session_store" then { s' with glide_session_store := c.2.1 }
  else s'

/-- Build the result session from the cookie jar (lines 369–374). -/
def buildSession (jar : List (String × String × String)) : AuthSession :=
  jar.foldl addCookie {}

/-- `OktaAuthenticator.authenticate`, over a scripted response sequence.
`username`/`password` are the credentials; `mfaCode` is what the
caller-supplied `mfa_callback` returns when invoked (each invocation is
counted in the state). -/
def authenticate (username password mfaCode : String) : FlowM AuthSession := do
  -- Step 1: visit target page, then initiate SSO with it as Referer
  let target_url := SERVICENOW_BASE ++ "/customer_center?id=customer_center_home"
  let _ ← issue { method := .get, url := target_url }
  let sso_url := SERVICENOW_BASE ++ "/login_with_sso.do?glide_sso_id=" ++ SSO_ID
  let resp ← issue
    { method := .get
    , url := sso_url
    , headers := [("Referer", target_url)] }
  -- Follow one redirect to auth_redirect.do if present
  let resp ←
    if resp.status = 302 then do
      let redirect_url := headerGetD resp.headers "location" ""
      let redirect_url :=
        if strStartsWith redirect_url "http" then redirect_url
        else SERVICENOW_BASE ++ redirect_url
      issue { method := .get, url := redirect_url }
    else pure resp
  -- Extract the Okta SAML URL from the page
  match extract_saml_redirect resp.text with
  | none => throw (.authError "Could not find SAML redirect URL")
  | some saml_url => do
  -- Step 2: follow to the Okta login page
  let okta_resp ← issue { method := .get, url := saml_url }
  -- Step 3: introspect with the extracted stateToken
  match extract_state_token okta_resp.text with
  | none => throw (.authError "Could not extract Okta state token")
  | some state_token => do
  let introspect_resp ← issue
    { method := .post
    , url := OKTA_BASE ++ "/idp/idx/introspect"
    , headers := IDX_HEADERS
    , jsonPayload := some (.obj [("stateToken", .str state_token)]) }
  if introspect_resp.status ≠ 200 then
    throw (.authError ("Introspect failed: " ++ toString introspect_resp.status
      ++ " - " ++ String.mk (introspect_resp.text.data.take 200)))
  let introspect_data ← respJson introspect_resp
  let state_handle ← pyGetF introspect_data "stateHandle" (.str "")
  if !state_handle.truthy then
    throw (.authError "Could not get stateHandle from introspect")
  -- Step 4: submit credentials
  let identify_resp ← issue
    { method := .post
    , url := OKTA_BASE ++ "/idp/idx/identify"
    , headers := IDX_HEADERS
    , jsonPayload := some (.obj
        [ ("identifier", .str username)
        , ("credentials", .obj [("passcode", .str password)])
        , ("stateHandle", state_handle) ]) }
  if identify_resp.status ≠ 200 then
    throw (.authError ("Login failed: " ++ toString identify_resp.status))
  let identify_data ← respJson identify_resp
  let state_handle ← pyGetF identify_data "stateHandle" state_handle
  -- success URL from the MFA or identify response
  let success_url ←
    if identify_data.hasKey "remediation" then do
      -- Step 5a: locate the Okta Verify authenticator id
      let rem0 ← pyGetF identify_data "remediation" (.obj [])
      let remediation_value ← pyGetF rem0 "value" (.arr [])
      let rems ← liftPy remediation_value.pyIter
      let authenticator_id ← liftPy (scanRems none rems)
      let authenticator_id ←
        if !(match authenticator_id with
             | some v => v.truthy
             | none => false) then do
          let a0 ← pyGetF identify_data "authenticators" (.obj [])
          let avs ← pyGetF a0 "value" (.arr [])
          let auths ← liftPy avs.pyIter
          let r ← liftPy (scanAuths auths)
          pure (match r with | some v => some v | none => authenticator_id)
        else pure authenticator_id
      -- select Okta Verify with TOTP method, when an id was found
      let aidVal := match authenticator_id with | some v => v | none => Json.null
      let state_handle ←
        if aidVal.truthy then do
          let select_resp ← issue
            { method := .post
            , url := OKTA_BASE ++ "/idp/idx/challenge"
            , headers := IDX_HEADERS
            , jsonPayload := some (.obj
                [ ("authenticator", .obj
                    [("id", aidVal), ("methodType", .str "totp")])
                , ("stateHandle", state_handle) ]) }
          if select_resp.status = 200 then do
            let select_data ← respJson select_resp
            pyGetF select_data "stateHandle" state_handle
          else pure state_handle  -- warning printed, flow continues
        else pure state_handle
      -- Step 5b: invoke the MFA callback and submit the code
      modify fun st => { st with mfaCalls := st.mfaCalls + 1 }
      let mfa_code := mfaCode
      let challenge_resp ← issue
        { method := .post
        , url := OKTA_BASE ++ "/idp/idx/challenge/answer"
        , headers := IDX_HEADERS
        , jsonPayload := some (.obj
            [ ("credentials", .obj [("totp", .str mfa_code)])
            , ("stateHandle", state_handle) ]) }
      if challenge_resp.status ≠ 200 then
        throw (.authError ("MFA failed: " ++ toString challenge_resp.status))
      let challenge_data ← respJson challenge_resp
      -- use success.href, NOT stateHandle
      let success_info ← pyGetF challenge_data "success" (.obj [])
      pyGetF success_info "href" .null
    else do
      -- no MFA: success in the identify response
      let success_info ← pyGetF identify_data "success" (.obj [])
      pyGetF success_info "href" .null
  -- Step 6: GET the redirect carrying the SAML response
  if !success_url.truthy then
    throw (.authError "No success URL in authentication response")
  let token_redirect ←
    match success_url.asStr with
    | some u => pure u
    | none => throw (.pyError .typeMismatch)  -- a non-string URL would not GET
  let token_resp ← issue
    { method := .get
    , url := token_redirect
    , followRedirects := true }
  let (saml_response, relay_state) := extract_saml_response token_resp.text
  match saml_response with
  | none => throw (.authError "Could not extract SAML response")
  | some saml_response => do
  -- Step 7: POST the SAML response to ServiceNow with browser headers
  let callback_resp ← issue
    { method := .post
    , url := SERVICENOW_BASE ++ "/nav_to.do"
    , headers :=
        [ ("Content-Type", "application/x-www-form-urlencoded")
        , ("Origin", "https://sso.ellucian.com")
        , ("Referer", "https://sso.ellucian.com/")
        , ("Accept", "text/html,application/xhtml+xml,application/xml;q=0.9,*/*;q=0.8")
        , ("Upgrade-Insecure-Requests", "1")
        , ("Sec-Fetch-Dest", "document")
        , ("Sec-Fetch-Mode", "navigate")
        , ("Sec-Fetch-Site", "cross-site") ]
    , formPayload := some
        [("SAMLResponse", some saml_response), ("RelayState", relay_state)] }
  -- follow redirects to establish the session
  let fuel := (← get).pending.length + 1
  let callback_resp ← followRedirectChain fuel callback_resp
  -- ensure customer_center was visited so glide_session_store gets set
  let _ ←
    if !containsStr callback_resp.url "customer_center" then
      issue { method := .get, url := target_url }
    else pure callback_resp
  -- build the session from the cookie jar
  let session := buildSession (← get).jar
  if session.is_authenticated then do
    modify fun st => { st with saved := some session }
    pure session
  else
    -- cookie names present are printed; the raised message is fixed
    throw (.authError "Authentication completed but no session cookie")

/-- Run the full handshake against a scripted response sequence, starting
from an empty client state. -/
def runAuth (username password mfaCode : String) (script : List HttpResponse) :
    EStateM.Result FlowErr FlowSt AuthSession :=
  (authenticate username password mfaCode).run { pending := script }

/-- The final client state of a scripted run, on success or failure. -/
def finalSt {α : Type} : EStateM.Result FlowErr FlowSt α → FlowSt
  | .ok _ s => s
  | .error _ s => s

/-- The abnormal outcome of a scripted run, if any. -/
def flowError {α : Type} : EStateM.Result FlowErr FlowSt α → Option FlowErr
  | .ok _ _ => none
  | .error e _ => some e

/-- `OktaAuthenticator.validate_session`, with the single probe GET's
response supplied by the environment.  Returns the boolean result together
with the number of HTTP requests issued (0 or 1).  The function is total:
a merely-invalid session never raises. -/
def validate_session (session : AuthSession) (probe : HttpResponse) : Bool × Nat :=
  if !session.is_authenticated then (false, 0)
  else (headerGetD probe.headers "x-is-logged-in" "false" == "true", 1)

end OktaAuthenticator

/-! ## Supporting lemmas -/

/-- Truthiness of a JSON string is non-emptiness. -/
theorem truthy_str (s : String) : (Json.str s).truthy = (s != "") := rfl

/-- Decoding an encoded string-valued cookie object recovers the mapping. -/
theorem asStrMap_encode (cs : List (String × String)) :
    Json.asStrMap (Json.obj (cs.map fun p => (p.1, Json.str p.2))) = some cs := by
  induction cs with
  | nil => rfl
  | cons hd tl ih =>
      simp only [Json.asStrMap, List.map_cons] at ih ⊢
      simp [Json.strFields, Json.asStr, ih]

/-- A cookie present after `setCookie` was in the jar or is the new one. -/
theorem setCookie_mem (jar : List (String × String × String))
    (c d : String × String × String)
    (h : d ∈ OktaAuthenticator.setCookie jar c) : d ∈ jar ∨ d = c := by
  induction jar with
  | nil =>
      simp only [OktaAuthenticator.setCookie, List.mem_singleton] at h
      exact Or.inr h
  | cons e rest ih =>
      simp only [OktaAuthenticator.setCookie] at h
      by_cases hp : e.1 = c.1 ∧ e.2.2 = c.2.2
      · rw [if_pos hp] at h
        rcases List.mem_cons.mp h with rfl | h
        · exact Or.inr rfl
        · exact Or.inl (List.mem_cons_of_mem _ h)
      · rw [if_neg hp] at h
        rcases List.mem_cons.mp h with rfl | h
        · exact Or.inl (List.mem_cons_self _ _)
        · rcases ih h with h' | h'
          · exact Or.inl (List.mem_cons_of_mem _ h')
          · exact Or.inr h'

/-- `updateJar` introduces no cookie name beyond the jar's and the new
cookies'. -/
theorem updateJar_names (jar new : List (String × String × String)) (n : String)
    (hj : ∀ d ∈ jar, d.1 ≠ n) (hn : ∀ d ∈ new, d.1 ≠ n) :
    ∀ d ∈ OktaAuthenticator.updateJar jar new, d.1 ≠ n := by
  induction new generalizing jar with
  | nil => simpa [OktaAuthenticator.updateJar] using hj
  | cons c rest ih =>
      simp only [OktaAuthenticator.updateJar, List.foldl_cons]
      refine ih (OktaAuthenticator.setCookie jar c) ?_
        (fun d hd => hn d (List.mem_cons_of_mem _ hd))
      intro d hd
      rcases setCookie_mem jar c d hd with h | rfl
      · exact hj d h
      · exact hn _ (List.mem_cons_self _ _)

/-- The session-building fold keeps the distinguished field empty when no
jar cookie is named `glide_session_store`. -/
theorem buildSession_glide (jar : List (String × String × String))
    (s : AuthSession)
    (h : ∀ d ∈ jar, d.1 ≠ "glide_session_store")
    (hs : s.glide_session_store = "") :
    (jar.foldl OktaAuthenticator.addCookie s).glide_session_store = "" := by
  induction jar generalizing s with
  | nil => exact hs
  | cons c rest ih =>
      simp only [List.foldl_cons]
      refine ih _ (fun d hd => h d (List.mem_cons_of_mem _ hd)) ?_
      have hc := h c (List.mem_cons_self _ _)
      simp [OktaAuthenticator.addCookie, hc, hs]

/-- A jar without a `glide_session_store` cookie builds an unauthenticated
session. -/
theorem buildSession_unauthenticated (jar : List (String × String × String))
    (h : ∀ d ∈ jar, d.1 ≠ "glide_session_store") :
    (OktaAuthenticator.buildSession jar).is_authenticated = false := by
  have hg := buildSession_glide jar {} h rfl
  simp [AuthSession.is_authenticated, OktaAuthenticator.buildSession, hg]

/-! ## Claim theorems -/

/-- C8: for every `AuthSession` value — any cookie mapping, including ones
that omit the distinguished cookie — `is_authenticated` is `true` iff the
`glide_session_store` field is a non-empty string. -/
theorem c8_is_authenticated_iff_nonempty (cookies : List (String × String))
    (email uid glide : String) :
    (AuthSession.mk cookies email uid glide).is_authenticated = true ↔ glide ≠ "" := by
  simp [AuthSession.is_authenticated]

/-- C2 counterexample: a file holding the valid JSON object `{}` — valid JSON
with every required key missing — makes `load` return a default-filled
session, not `None`.  The claim that `load` returns `None` in the
missing-keys case is false on the code. -/
theorem c2_counterexample_missing_keys :
    AuthSession.load (some (some (Json.obj []))) = .ok (some ⟨[], "", "", ""⟩) ∧
    AuthSession.load (some (some (Json.obj []))) ≠ .ok none := by
  exact ⟨rfl, fun h => Option.noConfusion (Except.ok.inj h)⟩

/-- C2 (amended): `load` returns `None` and never raises when the file is
missing or when its text is not parseable JSON (including an empty file);
when the file holds a valid JSON object that lacks the required keys, `load`
still never raises but returns a session filled with the defaults (empty
cookie map and empty strings) rather than `None`. -/
theorem c2_load_missing_or_malformed (kvs : List (String × Json))
    (hc : Json.lookup "cookies" kvs = none)
    (he : Json.lookup "user_email" kvs = none)
    (hu : Json.lookup "user_id" kvs = none)
    (hg : Json.lookup "glide_session_store" kvs = none) :
    AuthSession.load none = .ok none ∧
    AuthSession.load (some none) = .ok none ∧
    AuthSession.load (some (some (Json.obj kvs))) = .ok (some ⟨[], "", "", ""⟩) := by
  refine ⟨rfl, rfl, ?_⟩
  simp [AuthSession.load, AuthSession.loadBody, Json.pyGet, hc, he, hu, hg,
    AuthSession.decodeCookies, AuthSession.decodeStr, Json.asStrMap, Json.asStr,
    Json.strFields, Except.bind]

/-- Witness for C2 at the concrete object `{"foo": "x"}`. -/
theorem c2_load_missing_or_malformed_witness :
    AuthSession.load none = .ok none ∧
    AuthSession.load (some none) = .ok none ∧
    AuthSession.load (some (some (Json.obj [("foo", Json.str "x")]))) =
      .ok (some ⟨[], "", "", ""⟩) :=
  c2_load_missing_or_malformed [("foo", Json.str "x")] rfl rfl rfl rfl

/-- C9: for a well-formed stored session file — a JSON object carrying the
`cookies`, `user_email`, `user_id` and `glide_session_store` keys with their
expected types — `load` succeeds and an immediate `save` writes cookie and
identity data equal, value for value (hence byte for byte once serialized),
to the original's. -/
theorem c9_load_save_roundtrip (kvs : List (String × Json))
    (cs : List (String × String)) (email uid glide : String)
    (hc : Json.lookup "cookies" kvs =
      some (Json.obj (cs.map fun p => (p.1, Json.str p.2))))
    (he : Json.lookup "user_email" kvs = some (Json.str email))
    (hu : Json.lookup "user_id" kvs = some (Json.str uid))
    (hg : Json.lookup "glide_session_store" kvs = some (Json.str glide)) :
    AuthSession.load (some (some (Json.obj kvs))) =
      .ok (some ⟨cs, email, uid, glide⟩) ∧
    ((AuthSession.mk cs email uid glide).saveData.find "cookies" =
      Json.lookup "cookies" kvs ∧
     (AuthSession.mk cs email uid glide).saveData.find "user_email" =
      Json.lookup "user_email" kvs ∧
     (AuthSession.mk cs email uid glide).saveData.find "user_id" =
      Json.lookup "user_id" kvs ∧
     (AuthSession.mk cs email uid glide).saveData.find "glide_session_store" =
      Json.lookup "glide_session_store" kvs) := by
  refine ⟨?_, ?_, ?_, ?_, ?_⟩
  · simp [AuthSession.load, AuthSession.loadBody, Json.pyGet, hc, he, hu, hg,
      AuthSession.decodeCookies, AuthSession.decodeStr, Json.asStr,
      asStrMap_encode, Except.bind]
  · simp [AuthSession.saveData, Json.find, Json.lookup, hc]
  · simp [AuthSession.saveData, Json.find, Json.lookup, he]
  · simp [AuthSession.saveData, Json.find, Json.lookup, hu]
  · simp [AuthSession.saveData, Json.find, Json.lookup, hg]

/-- Witness for C9 at a concrete well-formed stored file. -/
theorem c9_load_save_roundtrip_witness :
    AuthSession.load (some (some (Json.obj
      [ ("cookies", Json.obj [("glide_session_store", Json.str "g1"),
          ("JSESSIONID", Json.str "j1")])
      , ("user_email", Json.str "a@b.c")
      , ("user_id", Json.str "u7")
      , ("glide_session_store", Json.str "g1") ]))) =
      .ok (some ⟨[("glide_session_store", "g1"), ("JSESSIONID", "j1")],
        "a@b.c", "u7", "g1"⟩) ∧
    ((AuthSession.mk [("glide_session_store", "g1"), ("JSESSIONID", "j1")]
        "a@b.c" "u7" "g1").saveData.find "cookies" =
      some (Json.obj [("glide_session_store", Json.str "g1"),
        ("JSESSIONID", Json.str "j1")]) ∧
     (AuthSession.mk [("glide_session_store", "g1"), ("JSESSIONID", "j1")]
        "a@b.c" "u7" "g1").saveData.find "user_email" = some (Json.str "a@b.c")) := by
  have h := c9_load_save_roundtrip
    [ ("cookies", Json.obj [("glide_session_store", Json.str "g1"),
        ("JSESSIONID", Json.str "j1")])
    , ("user_email", Json.str "a@b.c")
    , ("user_id", Json.str "u7")
    , ("glide_session_store", Json.str "g1") ]
    [("glide_session_store", "g1"), ("JSESSIONID", "j1")] "a@b.c" "u7" "g1"
    rfl rfl rfl rfl
  exact ⟨h.1, h.2.1.trans rfl, h.2.2.1.trans rfl⟩

/-- C4: once a session passes the local `is_authenticated` check, the probe
result is `true` exactly when the response carries an `x-is-logged-in`
header whose value is the string `"true"`; an absent header (the lookup is
case-insensitive, as in httpx) or any other value yields `false`.  The
embedded function is total, so a merely-invalid session never raises. -/
theorem c4_validate_session_header (session : AuthSession) (probe : HttpResponse)
    (hauth : session.is_authenticated = true) :
    (OktaAuthenticator.validate_session session probe).1 = true ↔
      (probe.headers.find? fun p => lowerStr p.1 = "x-is-logged-in").map Prod.snd =
        some "true" := by
  have hl : lowerStr "x-is-logged-in" = "x-is-logged-in" := rfl
  simp only [OktaAuthenticator.validate_session, hauth, Bool.not_true,
    Bool.false_eq_true, if_false, headerGetD, hl]
  cases hfind : probe.headers.find? fun p => lowerStr p.1 = "x-is-logged-in" with
  | none => simp [hfind]
  | some p => simp [hfind, beq_iff_eq]

/-- Witness for C4: an authenticated session probed against a response whose
`X-Is-Logged-In` header (mixed case) is `"true"`. -/
theorem c4_validate_session_header_witness :
    (OktaAuthenticator.validate_session ⟨[], "", "", "g"⟩
      ⟨200, [("X-Is-Logged-In", "true")], "", none, [], ""⟩).1 = true ↔
      (([("X-Is-Logged-In", "true")].find? fun p =>
          lowerStr p.1 = "x-is-logged-in").map Prod.snd = some "true") :=
  c4_validate_session_header ⟨[], "", "", "g"⟩
    ⟨200, [("X-Is-Logged-In", "true")], "", none, [], ""⟩ rfl

/-- C10: a session whose distinguished `glide_session_store` field is empty
makes `validate_session` return `false` with zero HTTP requests issued —
the network probe is never reached. -/
theorem c10_validate_session_no_probe (session : AuthSession) (probe : HttpResponse)
    (hglide : session.glide_session_store = "") :
    OktaAuthenticator.validate_session session probe = (false, 0) := by
  simp [OktaAuthenticator.validate_session, AuthSession.is_authenticated, hglide]

/-- Witness for C10 at a concrete unauthenticated session. -/
theorem c10_validate_session_no_probe_witness :
    OktaAuthenticator.validate_session ⟨[("JSESSIONID", "j")], "a@b.c", "u", ""⟩
      ⟨200, [("x-is-logged-in", "true")], "", none, [], ""⟩ = (false, 0) :=
  c10_validate_session_no_probe ⟨[("JSESSIONID", "j")], "a@b.c", "u", ""⟩
    ⟨200, [("x-is-logged-in", "true")], "", none, [], ""⟩ rfl

section AuthenticateClaims

open OktaAuthenticator

/-- C7: when the redirect-extraction patterns fail to locate the
identity-provider URL in the service-provider page, `authenticate` raises
`AuthenticationError("Could not find SAML redirect URL")`; at that point
every issued request was to the service provider (none to the identity
provider), and the run is over (terminal, no retry). -/
theorem c7_no_redirect_terminal (u p m : String) (r1 r2 : HttpResponse)
    (rest : List HttpResponse)
    (h302 : r2.status ≠ 302)
    (hex : extract_saml_redirect r2.text = none) :
    flowError (runAuth u p m (r1 :: r2 :: rest)) =
      some (.authError "Could not find SAML redirect URL") ∧
    ((finalSt (runAuth u p m (r1 :: r2 :: rest))).reqs.all
      fun q => strStartsWith q.url SERVICENOW_BASE) = true := by
  constructor <;>
    simp [runAuth, authenticate, issue, EStateM.run, h302, hex, flowError,
      finalSt, bind, EStateM.bind, pure, EStateM.pure, get, getThe,
      MonadStateOf.get, EStateM.get, set, MonadStateOf.set, EStateM.set,
      throw, throwThe, MonadExceptOf.throw, EStateM.throw, strStartsWith,
      SERVICENOW_BASE, SSO_ID, List.isPrefixOf]

/-- Witness for C7 at a concrete script of two contentless responses. -/
theorem c7_no_redirect_terminal_witness :
    flowError (runAuth "u" "p" "m" [{}, {}]) =
      some (.authError "Could not find SAML redirect URL") ∧
    ((finalSt (runAuth "u" "p" "m" [{}, {}])).reqs.all
      fun q => strStartsWith q.url SERVICENOW_BASE) = true :=
  c7_no_redirect_terminal "u" "p" "m" {} {} [] (by decide) rfl

/-- C5: when the identify step answers 200 with a `success` object directly
(no `remediation`, i.e. no MFA), the MFA callback is never invoked and the
SAML assertion is fetched by a GET to exactly the identify response's
`success.href` — the request trace is the five handshake requests followed
by that GET. -/
theorem c5_no_mfa_uses_identify_href
    (u p m : String) (r1 r2 r3 r4 r5 : HttpResponse)
    (saml_url state_token : String) (ij sh idj sh2 si : Json) (href : String)
    (h302 : r2.status ≠ 302)
    (hex : extract_saml_redirect r2.text = some saml_url)
    (htok : extract_state_token r3.text = some state_token)
    (hint : r4.status = 200)
    (hintj : r4.jsonBody = some ij)
    (hsh : ij.pyGet "stateHandle" (.str "") = .ok sh)
    (hsht : sh.truthy = true)
    (hid : r5.status = 200)
    (hidj : r5.jsonBody = some idj)
    (hnorem : idj.hasKey "remediation" = false)
    (hidsh : idj.pyGet "stateHandle" sh = .ok sh2)
    (hsucc : idj.pyGet "success" (.obj []) = .ok si)
    (hhref : si.pyGet "href" .null = .ok (.str href))
    (hht : href ≠ "") :
    flowError (runAuth u p m [r1, r2, r3, r4, r5]) = some .scriptEnd ∧
    (finalSt (runAuth u p m [r1, r2, r3, r4, r5])).mfaCalls = 0 ∧
    (finalSt (runAuth u p m [r1, r2, r3, r4, r5])).reqs.map
        (fun q => (q.method, q.url)) =
      [ (.get, SERVICENOW_BASE ++ "/customer_center?id=customer_center_home")
      , (.get, SERVICENOW_BASE ++ "/login_with_sso.do?glide_sso_id=" ++ SSO_ID)
      , (.get, saml_url)
      , (.post, OKTA_BASE ++ "/idp/idx/introspect")
      , (.post, OKTA_BASE ++ "/idp/idx/identify")
      , (.get, href) ] := by
  refine ⟨?_, ?_, ?_⟩ <;>
    simp [runAuth, authenticate, issue, EStateM.run, flowError, finalSt,
      h302, hex, htok, hint, hintj, hsh, hsht, hid, hidj, hnorem, hidsh,
      hsucc, hhref, hht, respJson, pyGetF, liftPy, truthy_str, Json.asStr,
      bind, EStateM.bind, pure, EStateM.pure, get, getThe, MonadStateOf.get,
      EStateM.get, set, MonadStateOf.set, EStateM.set, throw, throwThe,
      MonadExceptOf.throw, EStateM.throw]

/-- Witness for C5: a concrete scripted no-MFA sequence. -/
theorem c5_no_mfa_uses_identify_href_witness :
    flowError (runAuth "u" "p" "m"
      [ {}
      , { text := "https://sso.ellucian.com/app/a" }
      , { text := "\"stateToken\":\"T\"" }
      , { jsonBody := some (.obj [("stateHandle", .str "SH")]) }
      , { jsonBody := some (.obj
            [("success", .obj [("href", .str "https://sso.ellucian.com/t")])]) }
      ]) = some .scriptEnd ∧
    (finalSt (runAuth "u" "p" "m"
      [ {}
      , { text := "https://sso.ellucian.com/app/a" }
      , { text := "\"stateToken\":\"T\"" }
      , { jsonBody := some (.obj [("stateHandle", .str "SH")]) }
      , { jsonBody := some (.obj
            [("success", .obj [("href", .str "https://sso.ellucian.com/t")])]) }
      ])).mfaCalls = 0 ∧
    (finalSt (runAuth "u" "p" "m"
      [ {}
      , { text := "https://sso.ellucian.com/app/a" }
      , { text := "\"stateToken\":\"T\"" }
      , { jsonBody := some (.obj [("stateHandle", .str "SH")]) }
      , { jsonBody := some (.obj
            [("success", .obj [("href", .str "https://sso.ellucian.com/t")])]) }
      ])).reqs.map (fun q => (q.method, q.url)) =
      [ (.get, SERVICENOW_BASE ++ "/customer_center?id=customer_center_home")
      , (.get, SERVICENOW_BASE ++ "/login_with_sso.do?glide_sso_id=" ++ SSO_ID)
      , (.get, "https://sso.ellucian.com/app/a")
      , (.post, OKTA_BASE ++ "/idp/idx/introspect")
      , (.post, OKTA_BASE ++ "/idp/idx/identify")
      , (.get, "https://sso.ellucian.com/t") ] :=
  c5_no_mfa_uses_identify_href "u" "p" "m"
    {} { text := "https://sso.ellucian.com/app/a" }
    { text := "\"stateToken\":\"T\"" }
    { jsonBody := some (.obj [("stateHandle", .str "SH")]) }
    { jsonBody := some (.obj
        [("success", .obj [("href", .str "https://sso.ellucian.com/t")])]) }
    "https://sso.ellucian.com/app/a" "T"
    (.obj [("stateHandle", .str "SH")]) (.str "SH")
    (.obj [("success", .obj [("href", .str "https://sso.ellucian.com/t")])])
    (.str "SH")
    (.obj [("href", .str "https://sso.ellucian.com/t")])
    "https://sso.ellucian.com/t"
    (by decide) rfl rfl rfl rfl rfl rfl rfl rfl rfl rfl rfl rfl (by decide)

/-- C1: in an IDX sequence where identify answers 200 with a `remediation`
block naming the Okta Verify TOTP authenticator and challenge/answer
answers 200: (i) the MFA callback is invoked exactly once and the SAML
assertion is fetched by a GET to exactly the challenge/answer response's
`success.href` (the trace shows no URL built from a `stateHandle`); and
(ii) when the challenge/answer response carries no truthy `success.href`
(in particular when neither response carries one), `authenticate` raises
`AuthenticationError` instead of falling back to the `stateHandle`. -/
theorem c1_mfa_uses_challenge_href :
    (∀ (u p m : String) (r1 r2 r3 r4 r5 r6 r7 : HttpResponse)
       (saml_url state_token : String) (ij sh idj sh2 rem0 remv : Json)
       (rems : List Json) (aid sj sh3 cj ci : Json) (href : String),
       r2.status ≠ 302 →
       extract_saml_redirect r2.text = some saml_url →
       extract_state_token r3.text = some state_token →
       r4.status = 200 →
       r4.jsonBody = some ij →
       ij.pyGet "stateHandle" (.str "") = .ok sh →
       sh.truthy = true →
       r5.status = 200 →
       r5.jsonBody = some idj →
       idj.hasKey "remediation" = true →
       idj.pyGet "stateHandle" sh = .ok sh2 →
       idj.pyGet "remediation" (.obj []) = .ok rem0 →
       rem0.pyGet "value" (.arr []) = .ok remv →
       remv.pyIter = .ok rems →
       scanRems none rems = .ok (some aid) →
       aid.truthy = true →
       r6.status = 200 →
       r6.jsonBody = some sj →
       sj.pyGet "stateHandle" sh2 = .ok sh3 →
       r7.status = 200 →
       r7.jsonBody = some cj →
       cj.pyGet "success" (.obj []) = .ok ci →
       ci.pyGet "href" .null = .ok (.str href) →
       href ≠ "" →
       (flowError (runAuth u p m [r1, r2, r3, r4, r5, r6, r7]) =
          some .scriptEnd ∧
        (finalSt (runAuth u p m [r1, r2, r3, r4, r5, r6, r7])).mfaCalls = 1 ∧
        (finalSt (runAuth u p m [r1, r2, r3, r4, r5, r6, r7])).reqs.map
            (fun q => (q.method, q.url)) =
          [ (.get, SERVICENOW_BASE ++ "/customer_center?id=customer_center_home")
          , (.get, SERVICENOW_BASE ++ "/login_with_sso.do?glide_sso_id=" ++ SSO_ID)
          , (.get, saml_url)
          , (.post, OKTA_BASE ++ "/idp/idx/introspect")
          , (.post, OKTA_BASE ++ "/idp/idx/identify")
          , (.post, OKTA_BASE ++ "/idp/idx/challenge")
          , (.post, OKTA_BASE ++ "/idp/idx/challenge/answer")
          , (.get, href) ])) ∧
    (∀ (u p m : String) (r1 r2 r3 r4 r5 r6 r7 : HttpResponse)
       (rest : List HttpResponse)
       (saml_url state_token : String) (ij sh idj sh2 rem0 remv : Json)
       (rems : List Json) (aid sj sh3 cj ci hrefJ : Json),
       r2.status ≠ 302 →
       extract_saml_redirect r2.text = some saml_url →
       extract_state_token r3.text = some state_token →
       r4.status = 200 →
       r4.jsonBody = some ij →
       ij.pyGet "stateHandle" (.str "") = .ok sh →
       sh.truthy = true →
       r5.status = 200 →
       r5.jsonBody = some idj →
       idj.hasKey "remediation" = true →
       idj.pyGet "stateHandle" sh = .ok sh2 →
       idj.pyGet "remediation" (.obj []) = .ok rem0 →
       rem0.pyGet "value" (.arr []) = .ok remv →
       remv.pyIter = .ok rems →
       scanRems none rems = .ok (some aid) →
       aid.truthy = true →
       r6.status = 200 →
       r6.jsonBody = some sj →
       sj.pyGet "stateHandle" sh2 = .ok sh3 →
       r7.status = 200 →
       r7.jsonBody = some cj →
       cj.pyGet "success" (.obj []) = .ok ci →
       ci.pyGet "href" .null = .ok hrefJ →
       hrefJ.truthy = false →
       (flowError (runAuth u p m (r1 :: r2 :: r3 :: r4 :: r5 :: r6 :: r7 :: rest)) =
          some (.authError "No success URL in authentication response") ∧
        (finalSt (runAuth u p m
            (r1 :: r2 :: r3 :: r4 :: r5 :: r6 :: r7 :: rest))).mfaCalls = 1)) := by
  constructor
  · intro u p m r1 r2 r3 r4 r5 r6 r7 saml_url state_token ij sh idj sh2 rem0
      remv rems aid sj sh3 cj ci href h302 hex htok hint hintj hsh hsht hid
      hidj hrem hidsh hrem0 hremv hiter hscan haidt hsel hselj hselsh hch
      hchj hcs hchref hht
    refine ⟨?_, ?_, ?_⟩ <;>
      simp [runAuth, authenticate, issue, EStateM.run, flowError, finalSt,
        h302, hex, htok, hint, hintj, hsh, hsht, hid, hidj, hrem, hidsh,
        hrem0, hremv, hiter, hscan, haidt, hsel, hselj, hselsh, hch, hchj,
        hcs, hchref, hht, respJson, pyGetF, liftPy, truthy_str, Json.asStr,
        bind, EStateM.bind, pure, EStateM.pure, get, getThe, MonadStateOf.get,
        EStateM.get, set, MonadStateOf.set, EStateM.set, throw, throwThe,
        MonadExceptOf.throw, EStateM.throw, modify, modifyGet,
        MonadStateOf.modifyGet, EStateM.modifyGet]
  · intro u p m r1 r2 r3 r4 r5 r6 r7 rest saml_url state_token ij sh idj sh2
      rem0 remv rems aid sj sh3 cj ci hrefJ h302 hex htok hint hintj hsh
      hsht hid hidj hrem hidsh hrem0 hremv hiter hscan haidt hsel hselj
      hselsh hch hchj hcs hchref hhf
    constructor <;>
      simp [runAuth, authenticate, issue, EStateM.run, flowError, finalSt,
        h302, hex, htok, hint, hintj, hsh, hsht, hid, hidj, hrem, hidsh,
        hrem0, hremv, hiter, hscan, haidt, hsel, hselj, hselsh, hch, hchj,
        hcs, hchref, hhf, respJson, pyGetF, liftPy, truthy_str, Json.asStr,
        bind, EStateM.bind, pure, EStateM.pure, get, getThe, MonadStateOf.get,
        EStateM.get, set, MonadStateOf.set, EStateM.set, throw, throwThe,
        MonadExceptOf.throw, EStateM.throw, modify, modifyGet,
        MonadStateOf.modifyGet, EStateM.modifyGet]

/-- Witness for C1: concrete scripted MFA sequences, with (script A) and
without (script B) a `success.href` in the challenge/answer response. -/
theorem c1_mfa_uses_challenge_href_witness :
    (flowError (runAuth "u" "p" "m"
      [ {}
      , { text := "https://sso.ellucian.com/app/a" }
      , { text := "\"stateToken\":\"T\"" }
      , { jsonBody := some (.obj [("stateHandle", .str "SH")]) }
      , { jsonBody := some (.obj
            [ ("stateHandle", .str "SH2")
            , ("remediation", .obj [("value", .arr
                [ .obj [ ("name", .str "select-authenticator-authenticate")
                       , ("value", .arr
                           [ .obj [ ("name", .str "authenticator")
                                  , ("options", .arr
                                      [ .obj [ ("label", .str "Okta Verify")
                                             , ("value", .obj [("form", .obj
                                                 [("value", .arr
                                                    [ .obj [ ("name", .str "id")
                                                           , ("value", .str "AID") ] ])])])
                                             ] ]) ] ]) ] ])]) ]) }
      , { jsonBody := some (.obj [("stateHandle", .str "SH3")]) }
      , { jsonBody := some (.obj
            [("success", .obj [("href", .str "https://sso.ellucian.com/t")])]) }
      ]) = some .scriptEnd ∧
     (finalSt (runAuth "u" "p" "m"
      [ {}
      , { text := "https://sso.ellucian.com/app/a" }
      , { text := "\"stateToken\":\"T\"" }
      , { jsonBody := some (.obj [("stateHandle", .str "SH")]) }
      , { jsonBody := some (.obj
            [ ("stateHandle", .str "SH2")
            , ("remediation", .obj [("value", .arr
                [ .obj [ ("name", .str "select-authenticator-authenticate")
                       , ("value", .arr
                           [ .obj [ ("name", .str "authenticator")
                                  , ("options", .arr
                                      [ .obj [ ("label", .str "Okta Verify")
                                             , ("value", .obj [("form", .obj
                                                 [("value", .arr
                                                    [ .obj [ ("name", .str "id")
                                                           , ("value", .str "AID") ] ])])])
                                             ] ]) ] ]) ] ])]) ]) }
      , { jsonBody := some (.obj [("stateHandle", .str "SH3")]) }
      , { jsonBody := some (.obj
            [("success", .obj [("href", .str "https://sso.ellucian.com/t")])]) }
      ])).mfaCalls = 1) ∧
    flowError (runAuth "u" "p" "m"
      [ {}
      , { text := "https://sso.ellucian.com/app/a" }
      , { text := "\"stateToken\":\"T\"" }
      , { jsonBody := some (.obj [("stateHandle", .str "SH")]) }
      , { jsonBody := some (.obj
            [ ("stateHandle", .str "SH2")
            , ("remediation", .obj [("value", .arr
                [ .obj [ ("name", .str "select-authenticator-authenticate")
                       , ("value", .arr
                           [ .obj [ ("name", .str "authenticator")
                                  , ("options", .arr
                                      [ .obj [ ("label", .str "Okta Verify")
                                             , ("value", .obj [("form", .obj
                                                 [("value", .arr
                                                    [ .obj [ ("name", .str "id")
                                                           , ("value", .str "AID") ] ])])])
                                             ] ]) ] ]) ] ])]) ]) }
      , { jsonBody := some (.obj [("stateHandle", .str "SH3")]) }
      , { jsonBody := some (.obj [("success", .obj [])]) }
      ]) = some (.authError "No success URL in authentication response") := by
  refine ⟨⟨?_, ?_⟩, ?_⟩
  · exact (c1_mfa_uses_challenge_href.1 "u" "p" "m"
      {} { text := "https://sso.ellucian.com/app/a" }
      { text := "\"stateToken\":\"T\"" }
      { jsonBody := some (.obj [("stateHandle", .str "SH")]) }
      { jsonBody := some (.obj
          [ ("stateHandle", .str "SH2")
          , ("remediation", .obj [("value", .arr
              [ .obj [ ("name", .str "select-authenticator-authenticate")
                     , ("value", .arr
                         [ .obj [ ("name", .str "authenticator")
                                , ("options", .arr
                                    [ .obj [ ("label", .str "Okta Verify")
                                           , ("value", .obj [("form", .obj
                                               [("value", .arr
                                                  [ .obj [ ("name", .str "id")
                                                         , ("value", .str "AID") ] ])])])
                                           ] ]) ] ]) ] ])]) ]) }
      { jsonBody := some (.obj [("stateHandle", .str "SH3")]) }
      { jsonBody := some (.obj
          [("success", .obj [("href", .str "https://sso.ellucian.com/t")])]) }
      "https://sso.ellucian.com/app/a" "T"
      (.obj [("stateHandle", .str "SH")]) (.str "SH")
      (.obj
        [ ("stateHandle", .str "SH2")
        , ("remediation", .obj [("value", .arr
            [ .obj [ ("name", .str "select-authenticator-authenticate")
                   , ("value", .arr
                       [ .obj [ ("name", .str "authenticator")
                              , ("options", .arr
                                  [ .obj [ ("label", .str "Okta Verify")
                                         , ("value", .obj [("form", .obj
                                             [("value", .arr
                                                [ .obj [ ("name", .str "id")
                                                       , ("value", .str "AID") ] ])])])
                                         ] ]) ] ]) ] ])]) ])
      (.str "SH2")
      (.obj [("value", .arr
          [ .obj [ ("name", .str "select-authenticator-authenticate")
                 , ("value", .arr
                     [ .obj [ ("name", .str "authenticator")
                            , ("options", .arr
                                [ .obj [ ("label", .str "Okta Verify")
                                       , ("value", .obj [("form", .obj
                                           [("value", .arr
                                              [ .obj [ ("name", .str "id")
                                                     , ("value", .str "AID") ] ])])])
                                       ] ]) ] ]) ] ])])
      (.arr
        [ .obj [ ("name", .str "select-authenticator-authenticate")
               , ("value", .arr
                   [ .obj [ ("name", .str "authenticator")
                          , ("options", .arr
                              [ .obj [ ("label", .str "Okta Verify")
                                     , ("value", .obj [("form", .obj
                                         [("value", .arr
                                            [ .obj [ ("name", .str "id")
                                                   , ("value", .str "AID") ] ])])])
                                     ] ]) ] ]) ] ])
      [ .obj [ ("name", .str "select-authenticator-authenticate")
             , ("value", .arr
                 [ .obj [ ("name", .str "authenticator")
                        , ("options", .arr
                            [ .obj [ ("label", .str "Okta Verify")
                                   , ("value", .obj [("form", .obj
                                       [("value", .arr
                                          [ .obj [ ("name", .str "id")
                                                 , ("value", .str "AID") ] ])])])
                                   ] ]) ] ]) ] ]
      (.str "AID")
      (.obj [("stateHandle", .str "SH3")]) (.str "SH3")
      (.obj [("success", .obj [("href", .str "https://sso.ellucian.com/t")])])
      (.obj [("href", .str "https://sso.ellucian.com/t")])
      "https://sso.ellucian.com/t"
      (by decide) rfl rfl rfl rfl rfl rfl rfl rfl rfl rfl rfl rfl rfl rfl
      rfl rfl rfl rfl rfl rfl rfl rfl (by decide)).1
  · exact (c1_mfa_uses_challenge_href.1 "u" "p" "m"
      {} { text := "https://sso.ellucian.com/app/a" }
      { text := "\"stateToken\":\"T\"" }
      { jsonBody := some (.obj [("stateHandle", .str "SH")]) }
      { jsonBody := some (.obj
          [ ("stateHandle", .str "SH2")
          , ("remediation", .obj [("value", .arr
              [ .obj [ ("name", .str "select-authenticator-authenticate")
                     , ("value", .arr
                         [ .obj [ ("name", .str "authenticator")
                                , ("options", .arr
                                    [ .obj [ ("label", .str "Okta Verify")
                                           , ("value", .obj [("form", .obj
                                               [("value", .arr
                                                  [ .obj [ ("name", .str "id")
                                                         , ("value", .str "AID") ] ])])])
                                           ] ]) ] ]) ] ])]) ]) }
      { jsonBody := some (.obj [("stateHandle", .str "SH3")]) }
      { jsonBody := some (.obj
          [("success", .obj [("href", .str "https://sso.ellucian.com/t")])]) }
      "https://sso.ellucian.com/app/a" "T"
      (.obj [("stateHandle", .str "SH")]) (.str "SH")
      (.obj
        [ ("stateHandle", .str "SH2")
        , ("remediation", .obj [("value", .arr
            [ .obj [ ("name", .str "select-authenticator-authenticate")
                   , ("value", .arr
                       [ .obj [ ("name", .str "authenticator")
                              , ("options", .arr
                                  [ .obj [ ("label", .str "Okta Verify")
                                         , ("value", .obj [("form", .obj
                                             [("value", .arr
                                                [ .obj [ ("name", .str "id")
                                                       , ("value", .str "AID") ] ])])])
                                         ] ]) ] ]) ] ])]) ])
      (.str "SH2")
      (.obj [("value", .arr
          [ .obj [ ("name", .str "select-authenticator-authenticate")
                 , ("value", .arr
                     [ .obj [ ("name", .str "authenticator")
                            , ("options", .arr
                                [ .obj [ ("label", .str "Okta Verify")
                                       , ("value", .obj [("form", .obj
                                           [("value", .arr
                                              [ .obj [ ("name", .str "id")
                                                     , ("value", .str "AID") ] ])])])
                                       ] ]) ] ]) ] ])])
      (.arr
        [ .obj [ ("name", .str "select-authenticator-authenticate")
               , ("value", .arr
                   [ .obj [ ("name", .str "authenticator")
                          , ("options", .arr
                              [ .obj [ ("label", .str "Okta Verify")
                                     , ("value", .obj [("form", .obj
                                         [("value", .arr
                                            [ .obj [ ("name", .str "id")
                                                   , ("value", .str "AID") ] ])])])
                                     ] ]) ] ]) ] ])
      [ .obj [ ("name", .str "select-authenticator-authenticate")
             , ("value", .arr
                 [ .obj [ ("name", .str "authenticator")
                        , ("options", .arr
                            [ .obj [ ("label", .str "Okta Verify")
                                   , ("value", .obj [("form", .obj
                                       [("value", .arr
                                          [ .obj [ ("name", .str "id")
                                                 , ("value", .str "AID") ] ])])])
                                   ] ]) ] ]) ] ]
      (.str "AID")
      (.obj [("stateHandle", .str "SH3")]) (.str "SH3")
      (.obj [("success", .obj [("href", .str "https://sso.ellucian.com/t")])])
      (.obj [("href", .str "https://sso.ellucian.com/t")])
      "https://sso.ellucian.com/t"
      (by decide) rfl rfl rfl rfl rfl rfl rfl rfl rfl rfl rfl rfl rfl rfl
      rfl rfl rfl rfl rfl rfl rfl rfl (by decide)).2.1
  · exact (c1_mfa_uses_challenge_href.2 "u" "p" "m"
      {} { text := "https://sso.ellucian.com/app/a" }
      { text := "\"stateToken\":\"T\"" }
      { jsonBody := some (.obj [("stateHandle", .str "SH")]) }
      { jsonBody := some (.obj
          [ ("stateHandle", .str "SH2")
          , ("remediation", .obj [("value", .arr
              [ .obj [ ("name", .str "select-authenticator-authenticate")
                     , ("value", .arr
                         [ .obj [ ("name", .str "authenticator")
                                , ("options", .arr
                                    [ .obj [ ("label", .str "Okta Verify")
                                           , ("value", .obj [("form", .obj
                                               [("value", .arr
                                                  [ .obj [ ("name", .str "id")
                                                         , ("value", .str "AID") ] ])])])
                                           ] ]) ] ]) ] ])]) ]) }
      { jsonBody := some (.obj [("stateHandle", .str "SH3")]) }
      { jsonBody := some (.obj [("success", .obj [])]) }
      []
      "https://sso.ellucian.com/app/a" "T"
      (.obj [("stateHandle", .str "SH")]) (.str "SH")
      (.obj
        [ ("stateHandle", .str "SH2")
        , ("remediation", .obj [("value", .arr
            [ .obj [ ("name", .str "select-authenticator-authenticate")
                   , ("value", .arr
                       [ .obj [ ("name", .str "authenticator")
                              , ("options", .arr
                                  [ .obj [ ("label", .str "Okta Verify")
                                         , ("value", .obj [("form", .obj
                                             [("value", .arr
                                                [ .obj [ ("name", .str "id")
                                                       , ("value", .str "AID") ] ])])])
                                         ] ]) ] ]) ] ])]) ])
      (.str "SH2")
      (.obj [("value", .arr
          [ .obj [ ("name", .str "select-authenticator-authenticate")
                 , ("value", .arr
                     [ .obj [ ("name", .str "authenticator")
                            , ("options", .arr
                                [ .obj [ ("label", .str "Okta Verify")
                                       , ("value", .obj [("form", .obj
                                           [("value", .arr
                                              [ .obj [ ("name", .str "id")
                                                     , ("value", .str "AID") ] ])])])
                                       ] ]) ] ]) ] ])])
      (.arr
        [ .obj [ ("name", .str "select-authenticator-authenticate")
               , ("value", .arr
                   [ .obj [ ("name", .str "authenticator")
                          , ("options", .arr
                              [ .obj [ ("label", .str "Okta Verify")
                                     , ("value", .obj [("form", .obj
                                         [("value", .arr
                                            [ .obj [ ("name", .str "id")
                                                   , ("value", .str "AID") ] ])])])
                                     ] ]) ] ]) ] ])
      [ .obj [ ("name", .str "select-authenticator-authenticate")
             , ("value", .arr
                 [ .obj [ ("name", .str "authenticator")
                        , ("options", .arr
                            [ .obj [ ("label", .str "Okta Verify")
                                   , ("value", .obj [("form", .obj
                                       [("value", .arr
                                          [ .obj [ ("name", .str "id")
                                                 , ("value", .str "AID") ] ])])])
                                   ] ]) ] ]) ] ]
      (.str "AID")
      (.obj [("stateHandle", .str "SH3")]) (.str "SH3")
      (.obj [("success", .obj [])])
      (.obj []) .null
      (by decide) rfl rfl rfl rfl rfl rfl rfl rfl rfl rfl rfl rfl rfl rfl
      rfl rfl rfl rfl rfl rfl rfl rfl rfl).1

/-- C6: when the MFA challenge/answer POST answers non-200, `authenticate`
raises `AuthenticationError("MFA failed: <status>")` and the trace contains
no POST to the ServiceNow SAML-consumer endpoint `nav_to.do` — the handshake
aborts before the SAML POST-back, and the failed challenge is never
downgraded to skipping MFA. -/
theorem c6_mfa_failure_no_saml_post
    (u p m : String) (r1 r2 r3 r4 r5 r6 r7 : HttpResponse)
    (rest : List HttpResponse)
    (saml_url state_token : String) (ij sh idj sh2 rem0 remv : Json)
    (rems : List Json) (aid sj sh3 : Json)
    (h302 : r2.status ≠ 302)
    (hex : extract_saml_redirect r2.text = some saml_url)
    (htok : extract_state_token r3.text = some state_token)
    (hint : r4.status = 200)
    (hintj : r4.jsonBody = some ij)
    (hsh : ij.pyGet "stateHandle" (.str "") = .ok sh)
    (hsht : sh.truthy = true)
    (hid : r5.status = 200)
    (hidj : r5.jsonBody = some idj)
    (hrem : idj.hasKey "remediation" = true)
    (hidsh : idj.pyGet "stateHandle" sh = .ok sh2)
    (hrem0 : idj.pyGet "remediation" (.obj []) = .ok rem0)
    (hremv : rem0.pyGet "value" (.arr []) = .ok remv)
    (hiter : remv.pyIter = .ok rems)
    (hscan : scanRems none rems = .ok (some aid))
    (haidt : aid.truthy = true)
    (hsel : r6.status = 200)
    (hselj : r6.jsonBody = some sj)
    (hselsh : sj.pyGet "stateHandle" sh2 = .ok sh3)
    (hch : r7.status ≠ 200) :
    flowError (runAuth u p m (r1 :: r2 :: r3 :: r4 :: r5 :: r6 :: r7 :: rest)) =
      some (.authError ("MFA failed: " ++ toString r7.status)) ∧
    ((finalSt (runAuth u p m
        (r1 :: r2 :: r3 :: r4 :: r5 :: r6 :: r7 :: rest))).reqs.all
      fun q => !(q.method == .post &&
        q.url == SERVICENOW_BASE ++ "/nav_to.do")) = true := by
  constructor <;>
    simp [runAuth, authenticate, issue, EStateM.run, flowError, finalSt,
      h302, hex, htok, hint, hintj, hsh, hsht, hid, hidj, hrem, hidsh,
      hrem0, hremv, hiter, hscan, haidt, hsel, hselj, hselsh, hch,
      respJson, pyGetF, liftPy, truthy_str, Json.asStr, SERVICENOW_BASE,
      OKTA_BASE, SSO_ID,
      bind, EStateM.bind, pure, EStateM.pure, get, getThe, MonadStateOf.get,
      EStateM.get, set, MonadStateOf.set, EStateM.set, throw, throwThe,
      MonadExceptOf.throw, EStateM.throw, modify, modifyGet,
      MonadStateOf.modifyGet, EStateM.modifyGet]

/-- Witness for C6: a concrete scripted MFA sequence whose challenge/answer
POST answers 401. -/
theorem c6_mfa_failure_no_saml_post_witness :
    flowError (runAuth "u" "p" "m"
      [ {}
      , { text := "https://sso.ellucian.com/app/a" }
      , { text := "\"stateToken\":\"T\"" }
      , { jsonBody := some (.obj [("stateHandle", .str "SH")]) }
      , { jsonBody := some (.obj
            [ ("stateHandle", .str "SH2")
            , ("remediation", .obj [("value", .arr
                [ .obj [ ("name", .str "select-authenticator-authenticate")
                       , ("value", .arr
                           [ .obj [ ("name", .str "authenticator")
                                  , ("options", .arr
                                      [ .obj [ ("label", .str "Okta Verify")
                                             , ("value", .obj [("form", .obj
                                                 [("value", .arr
                                                    [ .obj [ ("name", .str "id")
                                                           , ("value", .str "AID") ] ])])])
                                             ] ]) ] ]) ] ])]) ]) }
      , { jsonBody := some (.obj [("stateHandle", .str "SH3")]) }
      , { status := 401 }
      ]) = some (.authError ("MFA failed: " ++ toString (401 : Nat))) ∧
    ((finalSt (runAuth "u" "p" "m"
      [ {}
      , { text := "https://sso.ellucian.com/app/a" }
      , { text := "\"stateToken\":\"T\"" }
      , { jsonBody := some (.obj [("stateHandle", .str "SH")]) }
      , { jsonBody := some (.obj
            [ ("stateHandle", .str "SH2")
            , ("remediation", .obj [("value", .arr
                [ .obj [ ("name", .str "select-authenticator-authenticate")
                       , ("value", .arr
                           [ .obj [ ("name", .str "authenticator")
                                  , ("options", .arr
                                      [ .obj [ ("label", .str "Okta Verify")
                                             , ("value", .obj [("form", .obj
                                                 [("value", .arr
                                                    [ .obj [ ("name", .str "id")
                                                           , ("value", .str "AID") ] ])])])
                                             ] ]) ] ]) ] ])]) ]) }
      , { jsonBody := some (.obj [("stateHandle", .str "SH3")]) }
      , { status := 401 }
      ])).reqs.all
      fun q => !(q.method == .post &&
        q.url == SERVICENOW_BASE ++ "/nav_to.do")) = true :=
  c6_mfa_failure_no_saml_post "u" "p" "m"
    {} { text := "https://sso.ellucian.com/app/a" }
    { text := "\"stateToken\":\"T\"" }
    { jsonBody := some (.obj [("stateHandle", .str "SH")]) }
    { jsonBody := some (.obj
        [ ("stateHandle", .str "SH2")
        , ("remediation", .obj [("value", .arr
            [ .obj [ ("name", .str "select-authenticator-authenticate")
                   , ("value", .arr
                       [ .obj [ ("name", .str "authenticator")
                              , ("options", .arr
                                  [ .obj [ ("label", .str "Okta Verify")
                                         , ("value", .obj [("form", .obj
                                             [("value", .arr
                                                [ .obj [ ("name", .str "id")
                                                       , ("value", .str "AID") ] ])])])
                                         ] ]) ] ]) ] ])]) ]) }
    { jsonBody := some (.obj [("stateHandle", .str "SH3")]) }
    { status := 401 }
    []
    "https://sso.ellucian.com/app/a" "T"
    (.obj [("stateHandle", .str "SH")]) (.str "SH")
    (.obj
      [ ("stateHandle", .str "SH2")
      , ("remediation", .obj [("value", .arr
          [ .obj [ ("name", .str "select-authenticator-authenticate")
                 , ("value", .arr
                     [ .obj [ ("name", .str "authenticator")
                            , ("options", .arr
                                [ .obj [ ("label", .str "Okta Verify")
                                       , ("value", .obj [("form", .obj
                                           [("value", .arr
                                              [ .obj [ ("name", .str "id")
                                                     , ("value", .str "AID") ] ])])])
                                       ] ]) ] ]) ] ])]) ])
    (.str "SH2")
    (.obj [("value", .arr
        [ .obj [ ("name", .str "select-authenticator-authenticate")
               , ("value", .arr
                   [ .obj [ ("name", .str "authenticator")
                          , ("options", .arr
                              [ .obj [ ("label", .str "Okta Verify")
                                     , ("value", .obj [("form", .obj
                                         [("value", .arr
                                            [ .obj [ ("name", .str "id")
                                                   , ("value", .str "AID") ] ])])])
                                     ] ]) ] ]) ] ])])
    (.arr
      [ .obj [ ("name", .str "select-authenticator-authenticate")
             , ("value", .arr
                 [ .obj [ ("name", .str "authenticator")
                        , ("options", .arr
                            [ .obj [ ("label", .str "Okta Verify")
                                   , ("value", .obj [("form", .obj
                                       [("value", .arr
                                          [ .obj [ ("name", .str "id")
                                                 , ("value", .str "AID") ] ])])])
                                   ] ]) ] ]) ] ])
    [ .obj [ ("name", .str "select-authenticator-authenticate")
           , ("value", .arr
               [ .obj [ ("name", .str "authenticator")
                      , ("options", .arr
                          [ .obj [ ("label", .str "Okta Verify")
                                 , ("value", .obj [("form", .obj
                                     [("value", .arr
                                        [ .obj [ ("name", .str "id")
                                               , ("value", .str "AID") ] ])])])
                                 ] ]) ] ]) ] ]
    (.str "AID")
    (.obj [("stateHandle", .str "SH3")]) (.str "SH3")
    (by decide) rfl rfl rfl rfl rfl rfl rfl rfl rfl rfl rfl rfl rfl rfl
    rfl rfl rfl rfl (by decide)

/-- C3 (amended): when the handshake completes — SAML POST answered 200,
redirect chain terminated on the target page — but no `glide_session_store`
cookie was ever set, `authenticate` raises `AuthenticationError` with the
fixed message `"Authentication completed but no session cookie"` and saves
no session. -/
theorem c3_no_session_cookie_raises
    (u p m : String) (r1 r2 r3 r4 r5 r6 r7 r8 r9 : HttpResponse)
    (saml_url state_token : String) (ij sh idj sh2 rem0 remv : Json)
    (rems : List Json) (aid sj sh3 cj ci : Json) (href : String)
    (samlv : String) (relayv : Option String)
    (h302 : r2.status ≠ 302)
    (hex : extract_saml_redirect r2.text = some saml_url)
    (htok : extract_state_token r3.text = some state_token)
    (hint : r4.status = 200)
    (hintj : r4.jsonBody = some ij)
    (hsh : ij.pyGet "stateHandle" (.str "") = .ok sh)
    (hsht : sh.truthy = true)
    (hid : r5.status = 200)
    (hidj : r5.jsonBody = some idj)
    (hrem : idj.hasKey "remediation" = true)
    (hidsh : idj.pyGet "stateHandle" sh = .ok sh2)
    (hrem0 : idj.pyGet "remediation" (.obj []) = .ok rem0)
    (hremv : rem0.pyGet "value" (.arr []) = .ok remv)
    (hiter : remv.pyIter = .ok rems)
    (hscan : scanRems none rems = .ok (some aid))
    (haidt : aid.truthy = true)
    (hsel : r6.status = 200)
    (hselj : r6.jsonBody = some sj)
    (hselsh : sj.pyGet "stateHandle" sh2 = .ok sh3)
    (hch : r7.status = 200)
    (hchj : r7.jsonBody = some cj)
    (hcs : cj.pyGet "success" (.obj []) = .ok ci)
    (hchref : ci.pyGet "href" .null = .ok (.str href))
    (hht : href ≠ "")
    (hsaml : extract_saml_response r8.text = (some samlv, relayv))
    (hnav : r9.status = 200)
    (hurl : containsStr r9.url "customer_center" = true)
    (hg1 : ∀ d ∈ r1.setCookies, d.1 ≠ "glide_session_store")
    (hg2 : ∀ d ∈ r2.setCookies, d.1 ≠ "glide_session_store")
    (hg3 : ∀ d ∈ r3.setCookies, d.1 ≠ "glide_session_store")
    (hg4 : ∀ d ∈ r4.setCookies, d.1 ≠ "glide_session_store")
    (hg5 : ∀ d ∈ r5.setCookies, d.1 ≠ "glide_session_store")
    (hg6 : ∀ d ∈ r6.setCookies, d.1 ≠ "glide_session_store")
    (hg7 : ∀ d ∈ r7.setCookies, d.1 ≠ "glide_session_store")
    (hg8 : ∀ d ∈ r8.setCookies, d.1 ≠ "glide_session_store")
    (hg9 : ∀ d ∈ r9.setCookies, d.1 ≠ "glide_session_store") :
    flowError (runAuth u p m [r1, r2, r3, r4, r5, r6, r7, r8, r9]) =
      some (.authError "Authentication completed but no session cookie") ∧
    (finalSt (runAuth u p m [r1, r2, r3, r4, r5, r6, r7, r8, r9])).saved =
      none := by
  have h0 : ∀ d ∈ ([] : List (String × String × String)),
      d.1 ≠ "glide_session_store" := by simp
  have hj1 := updateJar_names _ _ _ h0 hg1
  have hj2 := updateJar_names _ _ _ hj1 hg2
  have hj3 := updateJar_names _ _ _ hj2 hg3
  have hj4 := updateJar_names _ _ _ hj3 hg4
  have hj5 := updateJar_names _ _ _ hj4 hg5
  have hj6 := updateJar_names _ _ _ hj5 hg6
  have hj7 := updateJar_names _ _ _ hj6 hg7
  have hj8 := updateJar_names _ _ _ hj7 hg8
  have hj9 := updateJar_names _ _ _ hj8 hg9
  have hba := buildSession_unauthenticated _ hj9
  constructor <;>
    simp [runAuth, authenticate, issue, EStateM.run, flowError, finalSt,
      followRedirectChain,
      h302, hex, htok, hint, hintj, hsh, hsht, hid, hidj, hrem, hidsh,
      hrem0, hremv, hiter, hscan, haidt, hsel, hselj, hselsh, hch, hchj,
      hcs, hchref, hht, hsaml, hnav, hurl, hba,
      respJson, pyGetF, liftPy, truthy_str, Json.asStr,
      bind, EStateM.bind, pure, EStateM.pure, get, getThe, MonadStateOf.get,
      EStateM.get, set, MonadStateOf.set, EStateM.set, throw, throwThe,
      MonadExceptOf.throw, EStateM.throw, modify, modifyGet,
      MonadStateOf.modifyGet, EStateM.modifyGet]

/-- Witness for C3 (amended): a concrete scripted full handshake whose
responses never set a `glide_session_store` cookie. -/
theorem c3_no_session_cookie_raises_witness :
    flowError (runAuth "u" "p" "m"
      [ {}
      , { text := "https://sso.ellucian.com/app/a" }
      , { text := "\"stateToken\":\"T\"" }
      , { jsonBody := some (.obj [("stateHandle", .str "SH")]) }
      , { jsonBody := some (.obj
            [ ("stateHandle", .str "SH2")
            , ("remediation", .obj [("value", .arr
                [ .obj [ ("name", .str "select-authenticator-authenticate")
                       , ("value", .arr
                           [ .obj [ ("name", .str "authenticator")
                                  , ("options", .arr
                                      [ .obj [ ("label", .str "Okta Verify")
                                             , ("value", .obj [("form", .obj
                                                 [("value", .arr
                                                    [ .obj [ ("name", .str "id")
                                                           , ("value", .str "AID") ] ])])])
                                             ] ]) ] ]) ] ])]) ]) }
      , { jsonBody := some (.obj [("stateHandle", .str "SH3")]) }
      , { jsonBody := some (.obj
            [("success", .obj [("href", .str "https://sso.ellucian.com/t")])]) }
      , { text := "name=\"SAMLResponse\" value=\"X\"" }
      , { url := "https://elluciansupport.service-now.com/customer_center?id=x" }
      ]) = some (.authError "Authentication completed but no session cookie") ∧
    (finalSt (runAuth "u" "p" "m"
      [ {}
      , { text := "https://sso.ellucian.com/app/a" }
      , { text := "\"stateToken\":\"T\"" }
      , { jsonBody := some (.obj [("stateHandle", .str "SH")]) }
      , { jsonBody := some (.obj
            [ ("stateHandle", .str "SH2")
            , ("remediation", .obj [("value", .arr
                [ .obj [ ("name", .str "select-authenticator-authenticate")
                       , ("value", .arr
                           [ .obj [ ("name", .str "authenticator")
                                  , ("options", .arr
                                      [ .obj [ ("label", .str "Okta Verify")
                                             , ("value", .obj [("form", .obj
                                                 [("value", .arr
                                                    [ .obj [ ("name", .str "id")
                                                           , ("value", .str "AID") ] ])])])
                                             ] ]) ] ]) ] ])]) ]) }
      , { jsonBody := some (.obj [("stateHandle", .str "SH3")]) }
      , { jsonBody := some (.obj
            [("success", .obj [("href", .str "https://sso.ellucian.com/t")])]) }
      , { text := "name=\"SAMLResponse\" value=\"X\"" }
      , { url := "https://elluciansupport.service-now.com/customer_center?id=x" }
      ])).saved = none :=
  c3_no_session_cookie_raises "u" "p" "m"
    {} { text := "https://sso.ellucian.com/app/a" }
    { text := "\"stateToken\":\"T\"" }
    { jsonBody := some (.obj [("stateHandle", .str "SH")]) }
    { jsonBody := some (.obj
        [ ("stateHandle", .str "SH2")
        , ("remediation", .obj [("value", .arr
            [ .obj [ ("name", .str "select-authenticator-authenticate")
                   , ("value", .arr
                       [ .obj [ ("name", .str "authenticator")
                              , ("options", .arr
                                  [ .obj [ ("label", .str "Okta Verify")
                                         , ("value", .obj [("form", .obj
                                             [("value", .arr
                                                [ .obj [ ("name", .str "id")
                                                       , ("value", .str "AID") ] ])])])
                                         ] ]) ] ]) ] ])]) ]) }
    { jsonBody := some (.obj [("stateHandle", .str "SH3")]) }
    { jsonBody := some (.obj
        [("success", .obj [("href", .str "https://sso.ellucian.com/t")])]) }
    { text := "name=\"SAMLResponse\" value=\"X\"" }
    { url := "https://elluciansupport.service-now.com/customer_center?id=x" }
    "https://sso.ellucian.com/app/a" "T"
    (.obj [("stateHandle", .str "SH")]) (.str "SH")
    (.obj
      [ ("stateHandle", .str "SH2")
      , ("remediation", .obj [("value", .arr
          [ .obj [ ("name", .str "select-authenticator-authenticate")
                 , ("value", .arr
                     [ .obj [ ("name", .str "authenticator")
                            , ("options", .arr
                                [ .obj [ ("label", .str "Okta Verify")
                                       , ("value", .obj [("form", .obj
                                           [("value", .arr
                                              [ .obj [ ("name", .str "id")
                                                     , ("value", .str "AID") ] ])])])
                                       ] ]) ] ]) ] ])]) ])
    (.str "SH2")
    (.obj [("value", .arr
        [ .obj [ ("name", .str "select-authenticator-authenticate")
               , ("value", .arr
                   [ .obj [ ("name", .str "authenticator")
                          , ("options", .arr
                              [ .obj [ ("label", .str "Okta Verify")
                                     , ("value", .obj [("form", .obj
                                         [("value", .arr
                                            [ .obj [ ("name", .str "id")
                                                   , ("value", .str "AID") ] ])])])
                                     ] ]) ] ]) ] ])])
    (.arr
      [ .obj [ ("name", .str "select-authenticator-authenticate")
             , ("value", .arr
                 [ .obj [ ("name", .str "authenticator")
                        , ("options", .arr
                            [ .obj [ ("label", .str "Okta Verify")
                                   , ("value", .obj [("form", .obj
                                       [("value", .arr
                                          [ .obj [ ("name", .str "id")
                                                 , ("value", .str "AID") ] ])])])
                                   ] ]) ] ]) ] ])
    [ .obj [ ("name", .str "select-authenticator-authenticate")
           , ("value", .arr
               [ .obj [ ("name", .str "authenticator")
                      , ("options", .arr
                          [ .obj [ ("label", .str "Okta Verify")
                                 , ("value", .obj [("form", .obj
                                     [("value", .arr
                                        [ .obj [ ("name", .str "id")
                                               , ("value", .str "AID") ] ])])])
                                 ] ]) ] ]) ] ]
    (.str "AID")
    (.obj [("stateHandle", .str "SH3")]) (.str "SH3")
    (.obj [("success", .obj [("href", .str "https://sso.ellucian.com/t")])])
    (.obj [("href", .str "https://sso.ellucian.com/t")])
    "https://sso.ellucian.com/t"
    "X" none
    (by decide) rfl rfl rfl rfl rfl rfl rfl rfl rfl rfl rfl rfl rfl rfl
    rfl rfl rfl rfl rfl rfl rfl rfl (by decide) rfl rfl rfl
    (by simp) (by simp) (by simp) (by simp) (by simp) (by simp) (by simp)
    (by simp) (by simp)

/-- C3 counterexample: a run that reaches the end with a `JSESSIONID` cookie
in the jar but no `glide_session_store` raises `AuthenticationError` whose
message is the fixed string `"Authentication completed but no session
cookie"` — the names of the cookies actually obtained are not part of the
message, contradicting the claim as stated. -/
theorem c3_counterexample_message_lists_no_cookies :
    flowError (runAuth "u" "p" "m"
      [ { setCookies := [("JSESSIONID", "J1", "elluciansupport.service-now.com")] }
      , { text := "https://sso.ellucian.com/app/a" }
      , { text := "\"stateToken\":\"T\"" }
      , { jsonBody := some (.obj [("stateHandle", .str "SH")]) }
      , { jsonBody := some (.obj
            [("success", .obj [("href", .str "https://sso.ellucian.com/t")])]) }
      , { text := "name=\"SAMLResponse\" value=\"X\"" }
      , { url := "https://elluciansupport.service-now.com/customer_center?id=x" }
      ]) = some (.authError "Authentication completed but no session cookie") ∧
    ((finalSt (runAuth "u" "p" "m"
      [ { setCookies := [("JSESSIONID", "J1", "elluciansupport.service-now.com")] }
      , { text := "https://sso.ellucian.com/app/a" }
      , { text := "\"stateToken\":\"T\"" }
      , { jsonBody := some (.obj [("stateHandle", .str "SH")]) }
      , { jsonBody := some (.obj
            [("success", .obj [("href", .str "https://sso.ellucian.com/t")])]) }
      , { text := "name=\"SAMLResponse\" value=\"X\"" }
      , { url := "https://elluciansupport.service-now.com/customer_center?id=x" }
      ])).jar.map fun c => c.1) = ["JSESSIONID"] ∧
    containsStr "Authentication completed but no session cookie" "JSESSIONID" =
      false := by
  refine ⟨rfl, rfl, by decide⟩

end AuthenticateClaims
